import Mathlib

/-!
# Verification of the Coachd real-time guidance pipeline

Shallow embedding of the trigger-detection, guidance-generation and
teardown logic of `app/realtime.py` and `app/telnyx_stream_handler.py`,
together with theorems settling the specification claims about them.

Time is modelled as `ℚ` (seconds); Python strings are modelled as Lean
`String` with hand-rolled, list-based versions of `lower`, `strip`,
`split`, `startswith` and substring containment so that everything
kernel-evaluates on concrete inputs.
-/

namespace Coachd

/-! ## Python string primitives -/

/-- `listStarts pre l` : the char list `pre` is a prefix of `l`. -/
def listStarts : List Char → List Char → Bool
  | [], _ => true
  | _ :: _, [] => false
  | a :: as, b :: bs => a == b && listStarts as bs

/-- Python `a.startswith(b)`. -/
def pyStartsWith (a b : String) : Bool :=
  listStarts b.data a.data

/-- Substring search over char lists (`needle` occurs inside the hay). -/
def listContainsSub (needle : List Char) : List Char → Bool
  | [] => needle.isEmpty
  | c :: rest => listStarts needle (c :: rest) || listContainsSub needle rest

/-- Python `needle in hay` on strings. -/
def pyContains (hay needle : String) : Bool :=
  listContainsSub needle.data hay.data

/-- Python `s.lower()`. -/
def pyLower (s : String) : String :=
  String.mk (s.data.map Char.toLower)

/-- Python `s.strip()`. -/
def pyStrip (s : String) : String :=
  String.mk (((s.data.dropWhile Char.isWhitespace).reverse.dropWhile Char.isWhitespace).reverse)

/-- Helper for `pySplit`: accumulates the current word (reversed) in `acc`. -/
def pySplitAux : List Char → List Char → List String
  | acc, [] => if acc.isEmpty then [] else [String.mk acc.reverse]
  | acc, c :: rest =>
    if c.isWhitespace then
      if acc.isEmpty then pySplitAux [] rest
      else String.mk acc.reverse :: pySplitAux [] rest
    else pySplitAux (c :: acc) rest

/-- Python `s.split()` with no argument: split on whitespace runs, no empties. -/
def pySplit (s : String) : List String :=
  pySplitAux [] s.data

/-- Python `len(s.split())`. -/
def wordCount (s : String) : ℕ :=
  (pySplit s).length

/-- Python `s[:30]` as a string. -/
def first30 (s : String) : String :=
  String.mk (s.data.take 30)

/-- `|A ∩ B|` for word lists already deduplicated. -/
def interCount (a b : List String) : ℕ :=
  (a.filter (fun w => b.contains w)).length

/-- Concatenation of a list of strings. -/
def strConcat (l : List String) : String :=
  l.foldl (fun a b => a ++ b) ""

/-! ## Constants of `RealtimeTranscriber` (app/realtime.py) -/

def GUIDANCE_TIMEOUT_SECONDS : ℚ := 8.0

def GUIDANCE_COOLDOWN_SECONDS : ℚ := 3.0

def HOT_TRIGGER_COOLDOWN_SECONDS : ℚ := 1.5

def MIN_WORDS_FOR_GUIDANCE : ℕ := 12

/-- The hot-trigger keyword table of `_check_for_guidance_trigger`. -/
def hot_triggers : List String :=
  [ "afford", "expensive", "cost", "price", "money", "budget",
    "too much", "cheaper", "waste", "worth it", "tight",
    "think about", "talk to", "spouse", "wife", "husband",
    "not sure", "don\x27t know", "maybe", "later", "call me back",
    "let me think", "need time", "sleep on it", "pray about", "pray on",
    "send me information", "email me", "mail me", "send me something",
    "already have", "don\x27t need", "not interested", "no thanks",
    "can\x27t", "won\x27t", "no way", "pass", "not for me",
    "scam", "pushy", "what\x27s the catch", "fine print",
    "too good", "sounds fishy", "pyramid", "legit",
    "too young", "too old", "healthy", "never get sick",
    "pre-existing", "health issues", "medical",
    "bad time", "busy", "call back", "not now", "swamped",
    "work insurance", "through my job", "employer", "through work",
    "social security", "government", "va ", "veteran",
    "term", "whole life", "universal", "cash value",
    "investment", "stock market", "better return", "mutual fund",
    "dave ramsey", "ramsey", "suze orman",
    "waiting period", "how long", "blood test", "exam",
    "check with", "ask my", "run it by" ]

/-- `any(kw in text_lower for kw in hot_triggers)`. -/
def hasHotTrigger (text_lower : String) : Bool :=
  hot_triggers.any (fun kw => pyContains text_lower kw)

/-! ## Per-session trigger state (app/realtime.py) -/

/-- The mutable trigger-relevant fields of `RealtimeTranscriber`. -/
structure TriggerState where
  transcript_buffer : String
  last_guidance_time : ℚ
  last_trigger_text : String
  generating_guidance : Bool
  deriving Repr, DecidableEq

/-- `RealtimeTranscriber._is_semantic_duplicate`, with the state it may
mutate (resetting `last_trigger_text` after a >3s gap) threaded
explicitly.  Returns `(isDuplicate, newState)`. -/
def is_semantic_duplicate (s : TriggerState) (now : ℚ) (new_text : String) :
    Bool × TriggerState :=
  if s.last_trigger_text = "" then (false, s)
  else if now - s.last_guidance_time > 3.0 then
    (false, { s with last_trigger_text := "" })
  else
    let new_lower := pyStrip (pyLower new_text)
    let last_lower := pyStrip (pyLower s.last_trigger_text)
    if pyStartsWith new_lower (first30 last_lower) ||
        pyStartsWith last_lower (first30 new_lower) then
      (true, s)
    else
      let new_words := (pySplit new_lower).dedup
      let last_words := (pySplit last_lower).dedup
      if new_words.length > 0 ∧ last_words.length > 0 then
        if ((interCount new_words last_words : ℚ) /
            (max new_words.length last_words.length : ℚ)) > 0.7 then
          (true, s)
        else (false, s)
      else (false, s)

/-- `RealtimeTranscriber._check_for_guidance_trigger`.
Returns the updated state and whether `_generate_guidance` was
dispatched (`_schedule_async(self._generate_guidance())`). -/
def check_for_guidance_trigger (s : TriggerState) (now : ℚ)
    (latest_transcript : String) (is_final : Bool) : TriggerState × Bool :=
  if s.generating_guidance then (s, false)
  else
    let text_lower := pyLower latest_transcript
    if hasHotTrigger text_lower then
      if now - s.last_guidance_time < HOT_TRIGGER_COOLDOWN_SECONDS then (s, false)
      else
        let dup := is_semantic_duplicate s now latest_transcript
        if dup.1 then (dup.2, false)
        else
          let s2 := { dup.2 with
            last_guidance_time := now, last_trigger_text := latest_transcript }
          let s3 := if pyStrip latest_transcript ≠ "" then
              { s2 with transcript_buffer := latest_transcript }
            else s2
          (s3, true)
    else if is_final = false then (s, false)
    else if now - s.last_guidance_time < GUIDANCE_COOLDOWN_SECONDS then (s, false)
    else if wordCount s.transcript_buffer > MIN_WORDS_FOR_GUIDANCE then
      ({ s with last_guidance_time := now }, true)
    else (s, false)

/-- Fold `_check_for_guidance_trigger` over a list of transcript events
`(arrivalTime, text, isFinal)`, counting how many times generation was
dispatched. -/
def run_triggers (s : TriggerState) (events : List (ℚ × String × Bool)) :
    TriggerState × ℕ :=
  events.foldl
    (fun acc ev =>
      let r := check_for_guidance_trigger acc.1 ev.1 ev.2.1 ev.2.2
      (r.1, acc.2 + if r.2 then 1 else 0))
    (s, 0)

/-! ## Primitive-action traces of `_check_for_guidance_trigger`

To talk about the ORDER of the state updates relative to the dispatch of
`_generate_guidance` (claim about the race-condition fix), the same source
function is rendered a second time as a producer of a list of primitive
actions, emitted in the order the Python statements execute. -/

/-- One primitive effect of `_check_for_guidance_trigger`.
`set_transcript_buffer` is Python `self.transcript_buffer = x` (replacement);
`append_transcript_buffer` is Python `self.transcript_buffer += x`
(appending, as done elsewhere in `_handle_transcript`). -/
inductive TriggerAct where
  | set_last_guidance_time (t : ℚ)
  | set_last_trigger_text (s : String)
  | set_transcript_buffer (s : String)
  | append_transcript_buffer (s : String)
  | dispatch_generate
  deriving Repr, DecidableEq

/-- `_is_semantic_duplicate` as a trace producer: returns the result and the
actions it performs (it may clear `last_trigger_text` after a >3s gap). -/
def is_semantic_duplicate_trace (s : TriggerState) (now : ℚ) (new_text : String) :
    Bool × List TriggerAct :=
  if s.last_trigger_text = "" then (false, [])
  else if now - s.last_guidance_time > 3.0 then
    (false, [.set_last_trigger_text ""])
  else
    let new_lower := pyStrip (pyLower new_text)
    let last_lower := pyStrip (pyLower s.last_trigger_text)
    if pyStartsWith new_lower (first30 last_lower) ||
        pyStartsWith last_lower (first30 new_lower) then
      (true, [])
    else
      let new_words := (pySplit new_lower).dedup
      let last_words := (pySplit last_lower).dedup
      if new_words.length > 0 ∧ last_words.length > 0 then
        if ((interCount new_words last_words : ℚ) /
            (max new_words.length last_words.length : ℚ)) > 0.7 then
          (true, [])
        else (false, [])
      else (false, [])

/-- `_check_for_guidance_trigger` as a trace of primitive actions, in source
statement order. -/
def check_for_guidance_trigger_trace (s : TriggerState) (now : ℚ)
    (latest_transcript : String) (is_final : Bool) : List TriggerAct :=
  if s.generating_guidance then []
  else
    let text_lower := pyLower latest_transcript
    if hasHotTrigger text_lower then
      if now - s.last_guidance_time < HOT_TRIGGER_COOLDOWN_SECONDS then []
      else
        let dup := is_semantic_duplicate_trace s now latest_transcript
        if dup.1 then dup.2
        else
          dup.2 ++
          [.set_last_guidance_time now, .set_last_trigger_text latest_transcript] ++
          (if pyStrip latest_transcript ≠ "" then
              [.set_transcript_buffer latest_transcript]
            else []) ++
          [.dispatch_generate]
    else if is_final = false then []
    else if now - s.last_guidance_time < GUIDANCE_COOLDOWN_SECONDS then []
    else if wordCount s.transcript_buffer > MIN_WORDS_FOR_GUIDANCE then
      [.set_last_guidance_time now, .dispatch_generate]
    else []

/-! ## `RealtimeTranscriber._generate_guidance` (outer wrapper) -/

/-- How the awaited generation body ends: normal return, `asyncio.TimeoutError`
from the 8s `wait_for`, or some other exception propagating out. -/
inductive BodyOutcome where
  | completed
  | timedOut
  | failed
  deriving Repr, DecidableEq

/-- Which logged outcome `_generate_guidance` takes. -/
inductive GenLog where
  | skipped_no_rag
  | skipped_empty_buffer
  | skipped_already_generating
  | ok
  | timeout_logged
  | error_logged
  deriving Repr, DecidableEq

/-- Whether the generation body actually began (the guards were passed). -/
def GenLog.body_ran : GenLog → Bool
  | .ok | .timeout_logged | .error_logged => true
  | _ => false

/-- `RealtimeTranscriber._generate_guidance`: guards, the `try/except/finally`
around the awaited body, and the buffer clear.  The body itself is abstracted
by its outcome; `finally` always clears `_generating_guidance`. -/
def generate_guidance (has_rag : Bool) (s : TriggerState) (outcome : BodyOutcome) :
    TriggerState × GenLog :=
  if has_rag = false then (s, .skipped_no_rag)
  else if pyStrip s.transcript_buffer = "" then (s, .skipped_empty_buffer)
  else if s.generating_guidance then (s, .skipped_already_generating)
  else
    let s1 := { s with generating_guidance := true }
    match outcome with
    | .completed =>
      ({ s1 with transcript_buffer := "", generating_guidance := false }, .ok)
    | .timedOut =>
      ({ s1 with transcript_buffer := "", generating_guidance := false },
        .timeout_logged)
    | .failed =>
      ({ s1 with generating_guidance := false }, .error_logged)

/-! ## Token rebatching in `RealtimeTranscriber._do_generate_guidance` -/

def BATCH_INTERVAL : ℚ := 0.08

/-- A `guidance_start` / `guidance_chunk` message sent to `on_guidance`:
the event kind, the incremental chunk, the cumulative full text, and the
time it was sent. -/
structure GChunkEv where
  isStart : Bool
  chunk : String
  full : String
  time : ℚ
  deriving Repr, DecidableEq

/-- The loop state of `_do_generate_guidance`:
`full_text`, `first_chunk`, `batch_buffer`, `last_send_time`, plus the events
sent so far. -/
structure BatchState where
  full_text : String
  first_chunk : Bool
  batch_buffer : String
  last_send_time : ℚ
  events : List GChunkEv
  deriving Repr, DecidableEq

/-- One iteration of the `for chunk in guidance_stream` loop, fed the
fragment together with its arrival time (the value `time.time()` reads). -/
def stepChunk (st : BatchState) (arrival : ℚ × String) : BatchState :=
  if arrival.2 = "" then st
  else
    let full_text := st.full_text ++ arrival.2
    let batch_buffer := st.batch_buffer ++ arrival.2
    if st.first_chunk = true ∨ arrival.1 - st.last_send_time ≥ BATCH_INTERVAL then
      { full_text := full_text
        first_chunk := false
        batch_buffer := ""
        last_send_time := arrival.1
        events := st.events ++ [⟨st.first_chunk, batch_buffer, full_text, arrival.1⟩] }
    else
      { st with full_text := full_text, batch_buffer := batch_buffer }

/-- The whole streaming loop: `last_send_time` starts at `time.time()` = `t0`. -/
def runChunks (t0 : ℚ) (chunks : List (ℚ × String)) : BatchState :=
  chunks.foldl stepChunk ⟨"", true, "", t0, []⟩

/-- The `if batch_buffer:` flush after the loop, sent at stream end `t_end`. -/
def flushRemainder (st : BatchState) (t_end : ℚ) : List GChunkEv :=
  if st.batch_buffer ≠ "" then
    st.events ++ [⟨false, st.batch_buffer, st.full_text, t_end⟩]
  else st.events

/-- All `guidance_start`/`guidance_chunk` events produced by
`_do_generate_guidance` for a given timed fragment stream. -/
def do_generate_guidance_events (t0 t_end : ℚ) (chunks : List (ℚ × String)) :
    List GChunkEv :=
  flushRemainder (runChunks t0 chunks) t_end

/-! ## Session teardown and usage logging (app/realtime.py) -/

def SAMPLE_RATE : ℕ := 16000

def BYTES_PER_SAMPLE : ℕ := 2

def CHANNELS : ℕ := 1

/-- The teardown-relevant fields of `RealtimeTranscriber`: the running flag,
the connection, the audio byte counter, and the durations handed to
`log_deepgram_usage` (which unconditionally appends a billing record). -/
structure UsageState where
  is_running : Bool
  has_connection : Bool
  total_audio_bytes : ℕ
  usage_log : List ℚ
  deriving Repr, DecidableEq

/-- `RealtimeTranscriber._log_session_usage`. -/
def log_session_usage (u : UsageState) : UsageState :=
  if u.total_audio_bytes = 0 then u
  else
    let bytes_per_second := SAMPLE_RATE * BYTES_PER_SAMPLE * CHANNELS
    { u with usage_log :=
        u.usage_log ++ [(u.total_audio_bytes : ℚ) / (bytes_per_second : ℚ)] }

/-- `RealtimeTranscriber.stop`: sets `is_running = False`, calls
`_log_session_usage`, then finishes and drops the connection. -/
def rt_stop (u : UsageState) : UsageState :=
  let u1 := { u with is_running := false }
  let u2 := log_session_usage u1
  { u2 with has_connection := false }

/-- `RealtimeTranscriber._handle_close`: sets `is_running = False` and calls
`_log_session_usage`. -/
def rt_handle_close (u : UsageState) : UsageState :=
  log_session_usage { u with is_running := false }

/-! ## CallStateMachine (imported by app/realtime.py; its module is not among
the sources, so the parts this file needs are modelled from the spec) -/

/-- Modelled from the spec: the configured maximum of the down-close level
(§3: "down-close level (monotonically non-decreasing integer, capped)").
The concrete value is not fixed by the sources; no theorem depends on it. -/
def MAX_DOWN_CLOSE : ℕ := 3

/-- The claim-relevant state of `CallStateMachine`: the down-close level with
its cap, and the client profile. -/
structure CallSM where
  down_close_level : ℕ
  max_down_close : ℕ
  is_phone_call : Bool
  client_age : Option String
  client_occupation : Option String
  client_family : Option String
  client_budget : Option String
  deriving Repr, DecidableEq

/-- Modelled from the spec: the `CallStateMachine` constructor — level starts
at zero, profile empty (§3: client profile fields "each optional"). -/
def CallSM.init (is_phone : Bool) : CallSM :=
  ⟨0, MAX_DOWN_CLOSE, is_phone, none, none, none, none⟩

/-- Modelled from the spec: `CallStateMachine.apply_down_close` is not among
the sources (only its caller in app/realtime.py is).  §4.4: "applyDownClose()
increments down-close level by one, capped at a configured maximum, returns
whether the increment succeeded (false at cap)". -/
def CallSM.apply_down_close (m : CallSM) : CallSM × Bool :=
  if m.down_close_level < m.max_down_close then
    ({ m with down_close_level := m.down_close_level + 1 }, true)
  else (m, false)

/-- `n` repeated `apply_down_close` calls. -/
def CallSM.applyN (m : CallSM) : ℕ → CallSM
  | 0 => m
  | n + 1 => ((CallSM.applyN m n).apply_down_close).1

/-- `RealtimeTranscriber.apply_down_close` (the wrapper around the state
machine; returns `False` when no state machine exists). -/
def rt_apply_down_close (sm : Option CallSM) : Option CallSM × Bool :=
  match sm with
  | none => (none, false)
  | some m =>
    let r := m.apply_down_close
    (some r.1, r.2)

/-- Modelled from the spec: `CallStateMachine.update_client_profile` is not
among the sources (only its callers in app/realtime.py are).  §3: client
profile "(age, occupation, family, budget — each optional, set at most once
unless explicitly updated)": an explicit update sets the supplied field. -/
def CallSM.update_client_profile (m : CallSM)
    (age occupation family budget : Option String) : CallSM :=
  { m with
    client_age := match age with | some v => some v | none => m.client_age
    client_occupation :=
      match occupation with | some v => some v | none => m.client_occupation
    client_family := match family with | some v => some v | none => m.client_family
    client_budget := match budget with | some v => some v | none => m.client_budget }

/-! ## `RealtimeTranscriber.update_context` -/

/-- The fields of the legacy `CallContext` that `update_context` writes.
`none` = never set (`CallContext` comes from the absent rag_engine module;
only the fields assigned in app/realtime.py are modelled). -/
structure CallContextModel where
  call_type : Option String
  current_product : Option String
  client_age : Option String
  client_occupation : Option String
  client_family : Option String
  deriving Repr, DecidableEq

/-- An incoming `context_data` dict: `none` = key absent, `some v` = key
present with value `v` (`some ""` = present but falsy). -/
structure ContextData where
  call_type : Option String
  current_product : Option String
  client_age : Option String
  client_occupation : Option String
  client_family : Option String
  budget : Option String
  agency : Option String
  deriving Repr, DecidableEq

/-- Python truthiness of `context_data.get(key)` for string values. -/
def truthy : Option String → Bool
  | none => false
  | some v => v ≠ ""

/-- The context-relevant state of a session: legacy call context, optional
state machine, agency. -/
structure SessionCtx where
  call_context : CallContextModel
  state_machine : Option CallSM
  agency : Option String
  deriving Repr, DecidableEq

/-- `RealtimeTranscriber.update_context`: legacy-context field updates keyed on
`"key" in context_data`, then lazy creation of the state machine when a truthy
`call_type` arrives and none exists yet, feeding the profile fields of THAT
update into the fresh machine. -/
def update_context (s : SessionCtx) (d : ContextData) : SessionCtx :=
  let cc := s.call_context
  let cc := if d.call_type.isSome then { cc with call_type := d.call_type } else cc
  let cc := if d.current_product.isSome then
      { cc with current_product := d.current_product } else cc
  let cc := if d.client_age.isSome then { cc with client_age := d.client_age } else cc
  let cc := if d.client_occupation.isSome then
      { cc with client_occupation := d.client_occupation } else cc
  let cc := if d.client_family.isSome then
      { cc with client_family := d.client_family } else cc
  let agency := if d.agency.isSome then d.agency else s.agency
  let sm :=
    if truthy d.call_type && s.state_machine.isNone then
      let call_type := d.call_type.getD "presentation"
      let is_phone := ["phone", "phone_call", "appointment"].contains call_type
      let m := CallSM.init is_phone
      let m := if truthy d.client_age then
          m.update_client_profile d.client_age none none none else m
      let m := if truthy d.client_occupation then
          m.update_client_profile none d.client_occupation none none else m
      let m := if truthy d.client_family then
          m.update_client_profile none none d.client_family none else m
      let m := if truthy d.budget then
          m.update_client_profile none none none d.budget else m
      some m
    else s.state_machine
  { call_context := cc, state_machine := sm, agency := agency }

/-! ## The Telnyx dual-channel client stream handler
(app/telnyx_stream_handler.py, `ClientStreamHandler`) -/

def TELNYX_GUIDANCE_COOLDOWN_SECONDS : ℚ := 3.0

def TELNYX_MIN_WORDS_FOR_GUIDANCE : ℕ := 8

/-- `ClientStreamHandler.HOT_TRIGGERS`. -/
def TELNYX_HOT_TRIGGERS : List String :=
  [ "can\x27t afford", "too expensive", "not interested", "no money",
    "think about it", "talk to my", "spouse", "wife", "husband",
    "call back", "busy", "not a good time", "don\x27t need",
    "already have", "too much", "let me think", "send information",
    "how much", "what\x27s the cost", "what\x27s the price",
    "i need to", "let me", "give me some time", "not right now",
    "i\x27m not sure", "that\x27s a lot", "can\x27t do that", "don\x27t have" ]

/-- Telnyx-side hot keyword containment. -/
def telnyxHasHot (transcript_lower : String) : Bool :=
  TELNYX_HOT_TRIGGERS.any (fun kw => pyContains transcript_lower kw)

/-- Trigger-relevant state of `ClientStreamHandler`. -/
structure TelnyxState where
  client_buffer : String
  last_guidance_time : ℚ
  generating_guidance : Bool
  deriving Repr, DecidableEq

/-- `ClientStreamHandler._check_guidance_trigger` (called on final transcripts
only): returns whether `_generate_guidance` is awaited. -/
def telnyx_check_guidance_trigger (s : TelnyxState) (now : ℚ)
    (transcript : String) : Bool :=
  if s.generating_guidance then false
  else if now - s.last_guidance_time < TELNYX_GUIDANCE_COOLDOWN_SECONDS then false
  else
    let transcript_lower := pyLower transcript
    let triggered := telnyxHasHot transcript_lower
    let word_count := wordCount transcript
    let triggered :=
      if triggered = false ∧ word_count ≥ TELNYX_MIN_WORDS_FOR_GUIDANCE then true
      else triggered
    triggered

/-- A broadcast message of `ClientStreamHandler._generate_guidance`.  Note the
payloads as sent by the source: `guidance_start` carries only the (truncated)
trigger, `guidance_chunk` carries only the incremental text. -/
inductive TelnyxEvent where
  | guidance_start (trigger : String)
  | guidance_chunk (text : String)
  | guidance_complete (full_text : String)
  deriving Repr, DecidableEq

/-- `ClientStreamHandler._generate_guidance` streaming behaviour, with each
broadcast paired with the time it is sent: the start event goes out before the
stream at `t0`; every fragment is broadcast immediately on arrival; the
complete event goes out at stream end `t_end` with the accumulated text. -/
def telnyx_generate_guidance_events (trigger_text : String)
    (chunks : List (ℚ × String)) (t0 t_end : ℚ) : List (ℚ × TelnyxEvent) :=
  (t0, .guidance_start (String.mk (trigger_text.data.take 50))) ::
    (chunks.map (fun c => (c.1, TelnyxEvent.guidance_chunk c.2)) ++
      [(t_end, .guidance_complete (strConcat (chunks.map Prod.snd)))])

/-! ## Spec-side renderings of the duplicate predicate (for the refinement
statement of the semantic-duplicate claim; written from the spec words, to be
compared against `_is_semantic_duplicate` from the source) -/

/-- Spec wording: "one string's first 30 characters (lowercased, stripped)
are a prefix of the other". -/
def dupByStart30 (last cand : String) : Bool :=
  let a := pyStrip (pyLower cand)
  let b := pyStrip (pyLower last)
  pyStartsWith a (first30 b) || pyStartsWith b (first30 a)

/-- Spec wording: "the word-set overlap ratio |A∩B| / max(|A|,|B|)". -/
def overlapScore (last cand : String) : ℚ :=
  let a := (pySplit (pyStrip (pyLower cand))).dedup
  let b := (pySplit (pyStrip (pyLower last))).dedup
  (interCount a b : ℚ) / (max a.length b.length : ℚ)

/-- Invariant of the rebatching loop state of `_do_generate_guidance` after
processing the timed fragment list `cs`, starting from `last_send_time = t0`:
the first flush is an immediate `guidance_start` carrying the first non-empty
fragment, later flushes are `guidance_chunk`s spaced at least `BATCH_INTERVAL`
apart, nothing of the stream is lost, and each event carries the cumulative
text of everything flushed up to it. -/
def BatchInv (t0 : ℚ) (cs : List (ℚ × String)) (st : BatchState) : Prop :=
  (st.first_chunk = true ↔ cs.find? (fun x => x.2 ≠ "") = none) ∧
  (st.first_chunk = true →
    st.events = [] ∧ st.batch_buffer = "" ∧ st.last_send_time = t0 ∧
    st.full_text = "") ∧
  st.full_text = strConcat (cs.map Prod.snd) ∧
  strConcat (st.events.map GChunkEv.chunk) ++ st.batch_buffer = st.full_text ∧
  (∀ p : ℚ × String, cs.find? (fun x => x.2 ≠ "") = some p →
    st.events.head? = some ⟨true, p.2, p.2, p.1⟩) ∧
  (∀ e ∈ st.events.tail, e.isStart = false) ∧
  List.Chain' (fun a b => BATCH_INTERVAL ≤ b.time - a.time) st.events ∧
  (∀ e, st.events.getLast? = some e → st.last_send_time = e.time) ∧
  (∀ n, ∀ hn : n < st.events.length,
    (st.events[n]).full =
      strConcat ((st.events.take (n + 1)).map GChunkEv.chunk))

/-! ## Helper lemmas -/

lemma str_append_empty (a : String) : a ++ "" = a := by
  apply String.ext
  simp

lemma str_empty_append (a : String) : "" ++ a = a := by
  apply String.ext
  simp

lemma str_append_assoc (a b c : String) : a ++ b ++ c = a ++ (b ++ c) := by
  apply String.ext
  simp

lemma strConcat_foldl (l : List String) (s : String) :
    l.foldl (fun a b => a ++ b) s = s ++ strConcat l := by
  induction l generalizing s with
  | nil => simp [strConcat, str_append_empty]
  | cons x xs ih =>
    simp only [strConcat, List.foldl_cons] at *
    rw [ih (s ++ x), ih ("" ++ x), str_empty_append, str_append_assoc]

lemma strConcat_append (a b : List String) :
    strConcat (a ++ b) = strConcat a ++ strConcat b := by
  simp only [strConcat, List.foldl_append]
  rw [strConcat_foldl b (List.foldl (fun a b => a ++ b) "" a)]
  simp only [strConcat]

lemma strConcat_singleton (x : String) : strConcat [x] = x := by
  simp only [strConcat, List.foldl_cons, List.foldl_nil]
  exact str_empty_append x

lemma tail_append_of_ne_nil {α : Type} (l l' : List α) (h : l ≠ []) :
    (l ++ l').tail = l.tail ++ l' := by
  cases l with
  | nil => exact absurd rfl h
  | cons a as => rfl

lemma head?_append_left {α : Type} (l l' : List α) (a : α) (h : l.head? = some a) :
    (l ++ l').head? = some a := by
  cases l with
  | nil => simp at h
  | cons x xs => simpa using h

lemma overlapScore_zero (a b : List String)
    (h : ¬(a.length > 0 ∧ b.length > 0)) :
    ((interCount a b : ℚ) / (max a.length b.length : ℚ)) = 0 := by
  rcases Nat.eq_zero_or_pos a.length with ha | ha
  · have ha2 : a = [] := List.length_eq_zero.mp ha
    subst ha2
    simp [interCount]
  · have hb : b.length = 0 := by
      by_contra hb2
      exact h ⟨ha, Nat.pos_of_ne_zero hb2⟩
    have hb2 : b = [] := List.length_eq_zero.mp hb
    subst hb2
    have : interCount a [] = 0 := by
      simp [interCount]
    rw [this]
    simp

lemma is_semantic_duplicate_preserves (s : TriggerState) (now : ℚ) (t : String) :
    (is_semantic_duplicate s now t).2.generating_guidance = s.generating_guidance ∧
    (is_semantic_duplicate s now t).2.last_guidance_time = s.last_guidance_time ∧
    (is_semantic_duplicate s now t).2.transcript_buffer = s.transcript_buffer := by
  simp only [is_semantic_duplicate]
  split_ifs <;> simp

lemma is_semantic_duplicate_trace_acts (s : TriggerState) (now : ℚ) (t : String) :
    (is_semantic_duplicate_trace s now t).2 = [] ∨
    (is_semantic_duplicate_trace s now t).2 =
      [TriggerAct.set_last_trigger_text ""] := by
  simp only [is_semantic_duplicate_trace]
  split_ifs <;> simp

lemma run_triggers_cooldown_fixed (t1 : ℚ)
    (rest : List (ℚ × String × Bool)) :
    ∀ (s : TriggerState) (k : ℕ), s.generating_guidance = false →
    s.last_guidance_time = t1 →
    (∀ e ∈ rest, hasHotTrigger (pyLower e.2.1) = true ∧
      e.1 - t1 < HOT_TRIGGER_COOLDOWN_SECONDS) →
    rest.foldl
      (fun acc ev =>
        let r := check_for_guidance_trigger acc.1 ev.1 ev.2.1 ev.2.2
        (r.1, acc.2 + if r.2 then 1 else 0))
      (s, k) = (s, k) := by
  induction rest with
  | nil =>
    intro s k _ _ _
    rfl
  | cons e es ih =>
    intro s k hg hl hall
    obtain ⟨hhot, hlt⟩ := hall e (List.mem_cons_self e es)
    have hstep : check_for_guidance_trigger s e.1 e.2.1 e.2.2 = (s, false) := by
      have hcool : e.1 - s.last_guidance_time < HOT_TRIGGER_COOLDOWN_SECONDS := by
        rw [hl]
        exact hlt
      simp [check_for_guidance_trigger, hg, hhot, hcool]
    simp only [List.foldl_cons, hstep]
    exact ih s k hg hl (fun x hx => hall x (List.mem_cons_of_mem e hx))

lemma batchInv_init (t0 : ℚ) : BatchInv t0 [] ⟨"", true, "", t0, []⟩ := by
  refine ⟨by simp, by simp [strConcat], by simp [strConcat], ?_, by simp, by simp,
    by simp, by simp, by simp⟩
  simp [strConcat, str_append_empty]

lemma stepChunk_inv (t0 : ℚ) (cs : List (ℚ × String)) (st : BatchState)
    (c : ℚ × String) (h : BatchInv t0 cs st) :
    BatchInv t0 (cs ++ [c]) (stepChunk st c) := by
  obtain ⟨h1, h2, h3, h4, h5, h6, h7, h8, h9⟩ := h
  have hmap3 : strConcat ((cs ++ [c]).map Prod.snd) =
      strConcat (cs.map Prod.snd) ++ c.2 := by
    rw [List.map_append, List.map_cons, List.map_nil, strConcat_append,
      strConcat_singleton]
  by_cases hce : c.2 = ""
  · have hstep : stepChunk st c = st := by simp [stepChunk, hce]
    have hfind : (cs ++ [c]).find? (fun x => x.2 ≠ "") =
        cs.find? (fun x => x.2 ≠ "") := by
      simp [List.find?_append, hce]
    rw [hstep]
    exact ⟨by rw [hfind]; exact h1, h2,
      by rw [hmap3, hce, str_append_empty]; exact h3, h4,
      fun p hp => h5 p (by rwa [hfind] at hp), h6, h7, h8, h9⟩
  · have hfinds : (cs ++ [c]).find? (fun x => x.2 ≠ "") =
        (cs.find? (fun x => x.2 ≠ "")).or (some c) := by
      simp [List.find?_append, hce]
    have hflushcat : strConcat ((st.events ++
        [({ isStart := st.first_chunk, chunk := st.batch_buffer ++ c.2,
            full := st.full_text ++ c.2, time := c.1 } : GChunkEv)]).map
          GChunkEv.chunk) = st.full_text ++ c.2 := by
      rw [List.map_append, List.map_cons, List.map_nil, strConcat_append,
        strConcat_singleton]
      show strConcat (st.events.map GChunkEv.chunk) ++
        (st.batch_buffer ++ c.2) = _
      rw [← str_append_assoc, h4]
    by_cases hfc : st.first_chunk = true
    · obtain ⟨he, hb, hl, hf⟩ := h2 hfc
      have hnone : cs.find? (fun x => x.2 ≠ "") = none := h1.mp hfc
      have hfind : (cs ++ [c]).find? (fun x => x.2 ≠ "") = some c := by
        rw [hfinds, hnone]
        rfl
      have hstep : stepChunk st c =
          { full_text := st.full_text ++ c.2, first_chunk := false,
            batch_buffer := "", last_send_time := c.1,
            events := st.events ++
              [{ isStart := st.first_chunk, chunk := st.batch_buffer ++ c.2,
                 full := st.full_text ++ c.2, time := c.1 }] } := by
        simp [stepChunk, hce, hfc]
      rw [hstep]
      have hev : st.events ++
          [({ isStart := st.first_chunk, chunk := st.batch_buffer ++ c.2,
              full := st.full_text ++ c.2, time := c.1 } : GChunkEv)] =
          [({ isStart := true, chunk := c.2, full := c.2, time := c.1 } :
            GChunkEv)] := by
        rw [he, hfc, hb, hf, str_empty_append]
        rfl
      rw [hev]
      refine ⟨?_, ?_, ?_, ?_, ?_, ?_, ?_, ?_, ?_⟩
      · rw [hfind]
        simp
      · simp
      · show st.full_text ++ c.2 = _
        rw [hmap3, h3]
      · show strConcat _ ++ "" = st.full_text ++ c.2
        rw [str_append_empty, List.map_cons, List.map_nil, strConcat_singleton, hf,
          str_empty_append]
      · intro p hp
        rw [hfind] at hp
        injection hp with hp
        subst hp
        rfl
      · simp
      · simp
      · intro e hegl
        simp only [List.getLast?_singleton, Option.some.injEq] at hegl
        rw [← hegl]
      · intro n hn
        simp only [List.length_singleton] at hn
        interval_cases n
        simp [strConcat_singleton]
    · have hfc2 : st.first_chunk = false := by
        simpa using hfc
      obtain ⟨p0, hp0⟩ : ∃ p0, cs.find? (fun x => x.2 ≠ "") = some p0 := by
        cases hcs : cs.find? (fun x => x.2 ≠ "") with
        | none => exact absurd (h1.mpr hcs) hfc
        | some p => exact ⟨p, rfl⟩
      have hfind : (cs ++ [c]).find? (fun x => x.2 ≠ "") = some p0 := by
        rw [hfinds, hp0]
        rfl
      have hhead := h5 p0 hp0
      have hne : st.events ≠ [] := by
        intro h0
        rw [h0] at hhead
        simp at hhead
      by_cases hflush : c.1 - st.last_send_time ≥ BATCH_INTERVAL
      · have hstep : stepChunk st c =
            { full_text := st.full_text ++ c.2, first_chunk := false,
              batch_buffer := "", last_send_time := c.1,
              events := st.events ++
                [{ isStart := st.first_chunk, chunk := st.batch_buffer ++ c.2,
                   full := st.full_text ++ c.2, time := c.1 }] } := by
          simp [stepChunk, hce, hflush]
        rw [hstep]
        refine ⟨?_, ?_, ?_, ?_, ?_, ?_, ?_, ?_, ?_⟩
        · rw [hfind]
          simp
        · simp
        · show st.full_text ++ c.2 = _
          rw [hmap3, h3]
        · show strConcat _ ++ "" = st.full_text ++ c.2
          rw [str_append_empty, hflushcat]
        · intro p hp
          rw [hfind] at hp
          injection hp with hp
          subst hp
          exact head?_append_left _ _ _ hhead
        · show ∀ e ∈ (st.events ++ _).tail, e.isStart = false
          rw [tail_append_of_ne_nil _ _ hne]
          intro e he2
          rcases List.mem_append.mp he2 with hmem | hmem
          · exact h6 e hmem
          · simp only [List.mem_singleton] at hmem
            rw [hmem]
            exact hfc2
        · rw [List.chain'_append]
          refine ⟨h7, List.chain'_singleton _, ?_⟩
          intro x hx y hy
          simp only [List.head?_cons, Option.mem_def, Option.some.injEq] at hy
          rw [← hy]
          show BATCH_INTERVAL ≤ c.1 - x.time
          rw [← h8 x (Option.mem_def.mp hx)]
          exact hflush
        · intro e hegl
          rw [List.getLast?_concat] at hegl
          injection hegl with hegl
          show c.1 = e.time
          rw [← hegl]
        · intro n hn
          rcases Nat.lt_or_ge n st.events.length with hlt | hge
          · have htake : (st.events ++
                [({ isStart := st.first_chunk,
                    chunk := st.batch_buffer ++ c.2,
                    full := st.full_text ++ c.2, time := c.1 } : GChunkEv)]).take
                  (n + 1) = st.events.take (n + 1) := by
              rw [List.take_append_eq_append_take]
              have hz : n + 1 - st.events.length = 0 := by omega
              rw [hz]
              simp
            rw [htake, List.getElem_append_left hlt]
            exact h9 n hlt
          · have hn2 : n = st.events.length := by
              have hlen : (st.events ++
                  [({ isStart := st.first_chunk,
                      chunk := st.batch_buffer ++ c.2,
                      full := st.full_text ++ c.2, time := c.1 } : GChunkEv)]).length
                  = st.events.length + 1 := by
                simp
              rw [hlen] at hn
              omega
            have htake : (st.events ++
                [({ isStart := st.first_chunk,
                    chunk := st.batch_buffer ++ c.2,
                    full := st.full_text ++ c.2, time := c.1 } : GChunkEv)]).take
                  (n + 1) = st.events ++
                [({ isStart := st.first_chunk,
                    chunk := st.batch_buffer ++ c.2,
                    full := st.full_text ++ c.2, time := c.1 } : GChunkEv)] := by
              apply List.take_of_length_le
              simp [hn2]
            have hsub : n - st.events.length = 0 := by omega
            rw [htake, hflushcat, List.getElem_append_right hge]
            simp [hsub]
      · have hstep : stepChunk st c = { st with full_text := st.full_text ++ c.2, batch_buffer := st.batch_buffer ++ c.2 } := by
          simp [stepChunk, hce, hflush, hfc2]
        rw [hstep]
        refine ⟨?_, ?_, ?_, ?_, ?_, h6, h7, h8, h9⟩
        · show st.first_chunk = true ↔ _
          rw [hfind, hfc2]
          simp
        · intro hcontra
          rw [hfc2] at hcontra
          simp at hcontra
        · show st.full_text ++ c.2 = _
          rw [hmap3, h3]
        · show strConcat (st.events.map GChunkEv.chunk) ++
            (st.batch_buffer ++ c.2) = st.full_text ++ c.2
          rw [← str_append_assoc, h4]
        · intro p hp
          rw [hfind] at hp
          injection hp with hp
          subst hp
          exact hhead


lemma runChunks_inv (t0 : ℚ) (cs : List (ℚ × String)) :
    BatchInv t0 cs (runChunks t0 cs) := by
  have haux : ∀ (rest pre : List (ℚ × String)) (st : BatchState),
      BatchInv t0 pre st →
      BatchInv t0 (pre ++ rest) (rest.foldl stepChunk st) := by
    intro rest
    induction rest with
    | nil =>
      intro pre st h
      simpa using h
    | cons c cr ih =>
      intro pre st h
      have h3 := ih (pre ++ [c]) (stepChunk st c) (stepChunk_inv t0 pre st c h)
      simpa [List.append_assoc] using h3
  simpa using haux cs [] ⟨"", true, "", t0, []⟩ (batchInv_init t0)

/-! ## Claim theorems -/

/-- C1: for every session, at most one guidance generation is in flight at a
time.  (i) A trigger event arriving while `_generating_guidance` is set is
dropped: `_check_for_guidance_trigger` returns immediately, leaving the state
unchanged and dispatching nothing (there is no queue to put it on).
(ii) `_generate_guidance` never begins its body while the flag is set.
(iii) N hot triggers arriving within the hot cooldown window of the first
cause exactly one generation dispatch. -/
theorem single_flight_spec :
    (∀ (s : TriggerState) (now : ℚ) (text : String) (f : Bool),
      s.generating_guidance = true →
      check_for_guidance_trigger s now text f = (s, false)) ∧
    (∀ (hr : Bool) (s : TriggerState) (o : BodyOutcome),
      s.generating_guidance = true →
      (generate_guidance hr s o).1 = s ∧
      ((generate_guidance hr s o).2).body_ran = false) ∧
    (∀ (s : TriggerState) (t1 : ℚ) (x1 : String) (f1 : Bool)
        (rest : List (ℚ × String × Bool)),
      s.generating_guidance = false →
      hasHotTrigger (pyLower x1) = true →
      HOT_TRIGGER_COOLDOWN_SECONDS ≤ t1 - s.last_guidance_time →
      (is_semantic_duplicate s t1 x1).1 = false →
      (∀ e ∈ rest, hasHotTrigger (pyLower e.2.1) = true ∧
        e.1 - t1 < HOT_TRIGGER_COOLDOWN_SECONDS) →
      (run_triggers s ((t1, x1, f1) :: rest)).2 = 1) := by
  refine ⟨?_, ?_, ?_⟩
  · intro s now text f hg
    simp [check_for_guidance_trigger, hg]
  · intro hr s o hg
    cases hr <;> cases o <;>
      simp [generate_guidance, hg, GenLog.body_ran, apply_ite] <;>
      split_ifs <;> rfl
  · intro s t1 x1 f1 rest hg hhot hcool hdup hall
    have hfire : check_for_guidance_trigger s t1 x1 f1 =
        ((if pyStrip x1 ≠ "" then
            { (is_semantic_duplicate s t1 x1).2 with
              last_guidance_time := t1, last_trigger_text := x1,
              transcript_buffer := x1 }
          else
            { (is_semantic_duplicate s t1 x1).2 with
              last_guidance_time := t1, last_trigger_text := x1 }), true) := by
      simp only [check_for_guidance_trigger, hg, hhot, hdup, not_lt.mpr hcool]
      split_ifs <;> simp_all
    have hpres := is_semantic_duplicate_preserves s t1 x1
    simp only [run_triggers, List.foldl_cons, hfire]
    rw [run_triggers_cooldown_fixed t1 rest _ _ ?_ ?_ hall]
    · rfl
    · by_cases hb : pyStrip x1 ≠ "" <;> simp [hb, hpres.1, hg]
    · by_cases hb : pyStrip x1 ≠ "" <;> simp [hb]

/-- C1 witness: concrete instances of all three parts; in particular, three
hot triggers inside one 1.5s window produce exactly one dispatch. -/
theorem single_flight_witness :
    check_for_guidance_trigger ⟨"buf", 0, "", true⟩ 10 "i cannot afford that" true =
      (⟨"buf", 0, "", true⟩, false) ∧
    (generate_guidance true ⟨"buf", 0, "", true⟩ .completed).1 =
      ⟨"buf", 0, "", true⟩ ∧
    (run_triggers ⟨"", 0, "", false⟩
      [(10, "i cannot afford that", false), (21/2, "i cannot afford it", true),
        (11, "way too expensive", false)]).2 = 1 :=
  ⟨single_flight_spec.1 _ 10 _ true rfl,
    (single_flight_spec.2.1 true _ .completed rfl).1,
    single_flight_spec.2.2 ⟨"", 0, "", false⟩ 10 "i cannot afford that" false
      [(21/2, "i cannot afford it", true), (11, "way too expensive", false)]
      rfl (by decide) (by with_unfolding_all decide) (by decide)
      (by with_unfolding_all decide)⟩

/-- C2: with no generation in flight, a transcript containing a hot keyword is
treated identically whether interim or final, and dispatches generation iff at
least the 1.5s hot cooldown has elapsed since `last_guidance_time` and the
text is not a semantic duplicate of the last trigger text. -/
theorem hot_trigger_cooldown_spec (s : TriggerState) (now : ℚ) (latest : String)
    (hg : s.generating_guidance = false)
    (hh : hasHotTrigger (pyLower latest) = true) :
    (∀ f1 f2 : Bool, check_for_guidance_trigger s now latest f1 =
        check_for_guidance_trigger s now latest f2) ∧
    ((check_for_guidance_trigger s now latest true).2 = true ↔
      (HOT_TRIGGER_COOLDOWN_SECONDS ≤ now - s.last_guidance_time ∧
        (is_semantic_duplicate s now latest).1 = false)) := by
  constructor
  · intro f1 f2
    simp [check_for_guidance_trigger, hg, hh]
  · by_cases hc : now - s.last_guidance_time < HOT_TRIGGER_COOLDOWN_SECONDS
    · simp [check_for_guidance_trigger, hg, hh, hc, not_le.mpr hc]
    · by_cases hd : (is_semantic_duplicate s now latest).1 = true
      · simp [check_for_guidance_trigger, hg, hh, hc, hd]
      · have hd2 : (is_semantic_duplicate s now latest).1 = false := by
          simpa using hd
        simp [check_for_guidance_trigger, hg, hh, hc, hd2, not_lt.mp hc,
          apply_ite]

/-- C2 witness: with `lastGuidanceTime = 0`, a hot-keyword match at `1.6s`
fires and the same match at `1.0s` is suppressed (hot cooldown 1.5s). -/
theorem hot_trigger_cooldown_witness :
    (check_for_guidance_trigger ⟨"", 0, "", false⟩ 1.6
      "that is too expensive" true).2 = true ∧
    (check_for_guidance_trigger ⟨"", 0, "", false⟩ 1.0
      "that is too expensive" true).2 = false := by
  constructor
  · exact ((hot_trigger_cooldown_spec ⟨"", 0, "", false⟩ 1.6
      "that is too expensive" rfl (by decide)).2).mpr
      ⟨by with_unfolding_all decide, by decide⟩
  · have h := (hot_trigger_cooldown_spec ⟨"", 0, "", false⟩ 1.0
      "that is too expensive" rfl (by decide)).2
    rw [Bool.eq_false_iff]
    intro htrue
    obtain ⟨hc, -⟩ := h.mp htrue
    revert hc
    with_unfolding_all decide

/-- C3: the semantic-duplicate predicate.  If more than 3 seconds have elapsed
since `last_guidance_time`, the result is non-duplicate and
`last_trigger_text` ends up cleared; otherwise (with a non-empty last trigger)
the candidate is a duplicate iff one string of the pair, lowercased and
stripped, starts with the first 30 characters of the other, or the word-set
overlap ratio |A∩B| / max(|A|,|B|) exceeds 0.7. -/
theorem semantic_duplicate_spec (s : TriggerState) (now : ℚ) (text : String) :
    (now - s.last_guidance_time > 3.0 →
      (is_semantic_duplicate s now text).1 = false ∧
      (is_semantic_duplicate s now text).2.last_trigger_text = "") ∧
    (s.last_trigger_text ≠ "" → ¬ now - s.last_guidance_time > 3.0 →
      ((is_semantic_duplicate s now text).1 = true ↔
        (dupByStart30 s.last_trigger_text text = true ∨
          overlapScore s.last_trigger_text text > 0.7))) := by
  constructor
  · intro hgt
    by_cases h1 : s.last_trigger_text = ""
    · simp [is_semantic_duplicate, h1]
    · simp [is_semantic_duplicate, h1, hgt]
  · intro h1 hle
    simp only [is_semantic_duplicate, dupByStart30, overlapScore]
    rw [if_neg h1, if_neg hle]
    split_ifs with hp hlen hsc
    · simp [hp]
    · simp [hsc]
    · simp [hp, hsc]
    · simp [hp, overlapScore_zero _ _ hlen]
      norm_num

/-- C3 witness: the interim regrowth of the same utterance 0.5s later is a
duplicate (prefix rule), and any candidate after a 4s gap resets tracking. -/
theorem semantic_duplicate_witness :
    (is_semantic_duplicate
      ⟨"", 10, "thats too expensive for us right now", false⟩
      (21/2) "thats too expensive for us right").1 = true ∧
    (is_semantic_duplicate ⟨"", 0, "old trigger", false⟩ 4
      "anything").2.last_trigger_text = "" := by
  constructor
  · exact ((semantic_duplicate_spec
      ⟨"", 10, "thats too expensive for us right now", false⟩
      (21/2) "thats too expensive for us right").2
      (by decide) (by with_unfolding_all decide)).mpr (Or.inl (by decide))
  · exact ((semantic_duplicate_spec ⟨"", 0, "old trigger", false⟩ 4
      "anything").1 (by with_unfolding_all decide)).2

/-- C4 (amended): in the realtime engine the standard word-count mode runs
only on final events when no hot keyword matched, and fires iff the 3.0s
cooldown has elapsed and the ACCUMULATED buffer word count STRICTLY exceeds
`MIN_WORDS_FOR_GUIDANCE` (12); the Telnyx client-stream handler instead tests
the single final event with a NON-strict `≥` against its own
`MIN_WORDS_FOR_GUIDANCE` (8). -/
theorem word_count_trigger_spec :
    (∀ (s : TriggerState) (now : ℚ) (latest : String),
      s.generating_guidance = false →
      hasHotTrigger (pyLower latest) = false →
      check_for_guidance_trigger s now latest false = (s, false) ∧
      ((check_for_guidance_trigger s now latest true).2 = true ↔
        (GUIDANCE_COOLDOWN_SECONDS ≤ now - s.last_guidance_time ∧
          wordCount s.transcript_buffer > MIN_WORDS_FOR_GUIDANCE))) ∧
    (∀ (s : TelnyxState) (now : ℚ) (transcript : String),
      s.generating_guidance = false →
      telnyxHasHot (pyLower transcript) = false →
      (telnyx_check_guidance_trigger s now transcript = true ↔
        (TELNYX_GUIDANCE_COOLDOWN_SECONDS ≤ now - s.last_guidance_time ∧
          wordCount transcript ≥ TELNYX_MIN_WORDS_FOR_GUIDANCE))) := by
  constructor
  · intro s now latest hg hh
    constructor
    · simp [check_for_guidance_trigger, hg, hh]
    · by_cases hc : now - s.last_guidance_time < GUIDANCE_COOLDOWN_SECONDS
      · simp [check_for_guidance_trigger, hg, hh, hc, not_le.mpr hc]
      · by_cases hw : wordCount s.transcript_buffer > MIN_WORDS_FOR_GUIDANCE
        · simp [check_for_guidance_trigger, hg, hh, hc, hw, not_lt.mp hc]
        · simp [check_for_guidance_trigger, hg, hh, hc, hw]
  · intro s now transcript hg hh
    by_cases hc : now - s.last_guidance_time < TELNYX_GUIDANCE_COOLDOWN_SECONDS
    · simp [telnyx_check_guidance_trigger, hg, hh, hc, not_le.mpr hc]
    · by_cases hw : wordCount transcript ≥ TELNYX_MIN_WORDS_FOR_GUIDANCE
      · simp [telnyx_check_guidance_trigger, hg, hh, hc, hw, not_lt.mp hc]
      · simp [telnyx_check_guidance_trigger, hg, hh, hc, hw]

/-- C4 counterexample: in the Telnyx client-stream handler a final event of
EXACTLY `MIN_WORDS_FOR_GUIDANCE` (8) words with no hot keyword and an expired
cooldown DOES fire — the claim says a buffer of exactly the minimum does not
fire (strict `>`). -/
theorem word_count_trigger_cex :
    wordCount "the weather seems quite pleasant again here today" =
      TELNYX_MIN_WORDS_FOR_GUIDANCE ∧
    telnyxHasHot (pyLower "the weather seems quite pleasant again here today") =
      false ∧
    telnyx_check_guidance_trigger ⟨"", 0, false⟩ 10
      "the weather seems quite pleasant again here today" = true := by
  refine ⟨by decide, by decide, by with_unfolding_all decide⟩

/-- C4 witness: in the realtime engine a 13-word buffer fires on a final
non-hot event after the cooldown, a 12-word buffer does not; the Telnyx
handler fires on an 8-word final event. -/
theorem word_count_trigger_witness :
    (check_for_guidance_trigger
      ⟨"one two three four five six seven eight nine ten eleven twelve thirteen",
        0, "", false⟩ 10 "hello there friend" true).2 = true ∧
    (check_for_guidance_trigger
      ⟨"one two three four five six seven eight nine ten eleven twelve",
        0, "", false⟩ 10 "hello there friend" true).2 = false ∧
    telnyx_check_guidance_trigger ⟨"", 0, false⟩ 20
      "we would like to hear a little more" = true := by
  refine ⟨?_, ?_, ?_⟩
  · exact ((word_count_trigger_spec.1 _ 10 _ rfl (by decide)).2).mpr
      ⟨by with_unfolding_all decide, by decide⟩
  · have h := (word_count_trigger_spec.1
      ⟨"one two three four five six seven eight nine ten eleven twelve",
        0, "", false⟩ 10 "hello there friend" rfl (by decide)).2
    rw [Bool.eq_false_iff]
    intro htrue
    obtain ⟨-, hw⟩ := h.mp htrue
    revert hw
    decide
  · exact (word_count_trigger_spec.2 ⟨"", 0, false⟩ 20 _ rfl (by decide)).mpr
      ⟨by with_unfolding_all decide, by decide⟩

/-- C5: on the hot-trigger firing path, the trace of primitive actions is
exactly: the duplicate-check actions, then `last_guidance_time := now` and
`last_trigger_text := text` (synchronous state updates), then a REPLACEMENT
write of the transcript buffer, and only then the dispatch of generation —
the dispatch is last, both timestamp and trigger text are set before it, and
no buffer APPEND occurs anywhere on this path. -/
theorem hot_update_order_spec (s : TriggerState) (now : ℚ) (latest : String)
    (is_final : Bool)
    (hg : s.generating_guidance = false)
    (hh : hasHotTrigger (pyLower latest) = true)
    (hc : HOT_TRIGGER_COOLDOWN_SECONDS ≤ now - s.last_guidance_time)
    (hd : (is_semantic_duplicate_trace s now latest).1 = false) :
    check_for_guidance_trigger_trace s now latest is_final =
      (is_semantic_duplicate_trace s now latest).2 ++
        [TriggerAct.set_last_guidance_time now,
          TriggerAct.set_last_trigger_text latest] ++
        (if pyStrip latest ≠ "" then [TriggerAct.set_transcript_buffer latest]
          else []) ++
        [TriggerAct.dispatch_generate] ∧
    (check_for_guidance_trigger_trace s now latest is_final).getLast? =
      some TriggerAct.dispatch_generate ∧
    TriggerAct.set_last_guidance_time now ∈
      (check_for_guidance_trigger_trace s now latest is_final).dropLast ∧
    TriggerAct.set_last_trigger_text latest ∈
      (check_for_guidance_trigger_trace s now latest is_final).dropLast ∧
    (∀ x : String, TriggerAct.append_transcript_buffer x ∉
      check_for_guidance_trigger_trace s now latest is_final) := by
  have heq : check_for_guidance_trigger_trace s now latest is_final =
      (is_semantic_duplicate_trace s now latest).2 ++
        [TriggerAct.set_last_guidance_time now,
          TriggerAct.set_last_trigger_text latest] ++
        (if pyStrip latest ≠ "" then [TriggerAct.set_transcript_buffer latest]
          else []) ++
        [TriggerAct.dispatch_generate] := by
    simp [check_for_guidance_trigger_trace, hg, hh, hd, not_lt.mpr hc]
  refine ⟨heq, ?_, ?_, ?_, ?_⟩ <;>
    rcases is_semantic_duplicate_trace_acts s now latest with ha | ha <;>
      rw [heq, ha] <;> by_cases hb : pyStrip latest ≠ "" <;> simp [hb]

/-- C5 witness: a concrete hot trigger produces the trace
`[set time, set text, set buffer, dispatch]` with the dispatch last. -/
theorem hot_update_order_witness :
    (check_for_guidance_trigger_trace ⟨"", 0, "", false⟩ 10
      "i cannot afford that" false).getLast? =
      some TriggerAct.dispatch_generate ∧
    check_for_guidance_trigger_trace ⟨"", 0, "", false⟩ 10
      "i cannot afford that" false =
      [TriggerAct.set_last_guidance_time 10,
        TriggerAct.set_last_trigger_text "i cannot afford that",
        TriggerAct.set_transcript_buffer "i cannot afford that",
        TriggerAct.dispatch_generate] := by
  have h := hot_update_order_spec ⟨"", 0, "", false⟩ 10 "i cannot afford that"
    false rfl (by decide) (by with_unfolding_all decide) (by decide)
  refine ⟨h.2.1, ?_⟩
  rw [h.1]
  with_unfolding_all decide

/-- C6 (amended): for the realtime engine stream, (a) if any non-empty
fragment exists the first emitted event is an immediate `guidance_start` at
that fragment arrival time carrying exactly that fragment, (b) all later
events are `guidance_chunk`s, (c) consecutive in-loop flushes are at least
`BATCH_INTERVAL` (80ms) apart, (d) a non-empty batch remainder is flushed at
stream end regardless of timing, (e) every event carries the cumulative full
text of all chunks flushed up to and including it, and (f) the final full
text is the concatenation of the whole fragment stream.  The Telnyx
client-stream handler does NOT rebatch: (g) its `guidance_chunk` broadcasts
are exactly the fragments, each emitted immediately at its arrival time and
carrying only the incremental text. -/
theorem stream_rebatch_spec (t0 t_end : ℚ) (cs : List (ℚ × String)) :
    (∀ p : ℚ × String, cs.find? (fun x => x.2 ≠ "") = some p →
      (do_generate_guidance_events t0 t_end cs).head? =
        some ⟨true, p.2, p.2, p.1⟩) ∧
    (∀ e ∈ (do_generate_guidance_events t0 t_end cs).tail, e.isStart = false) ∧
    List.Chain' (fun a b => BATCH_INTERVAL ≤ b.time - a.time)
      (runChunks t0 cs).events ∧
    ((runChunks t0 cs).batch_buffer ≠ "" →
      do_generate_guidance_events t0 t_end cs =
        (runChunks t0 cs).events ++
          [⟨false, (runChunks t0 cs).batch_buffer, (runChunks t0 cs).full_text,
            t_end⟩]) ∧
    (∀ n, ∀ hn : n < (do_generate_guidance_events t0 t_end cs).length,
      ((do_generate_guidance_events t0 t_end cs)[n]).full =
        strConcat (((do_generate_guidance_events t0 t_end cs).take (n + 1)).map
          GChunkEv.chunk)) ∧
    (runChunks t0 cs).full_text = strConcat (cs.map Prod.snd) ∧
    (∀ (trig : String) (tchunks : List (ℚ × String)) (u0 u1 : ℚ),
      (telnyx_generate_guidance_events trig tchunks u0 u1).filterMap
        (fun te => match te.2 with
          | TelnyxEvent.guidance_chunk txt => some (te.1, txt)
          | _ => none) = tchunks) := by
  obtain ⟨h1, h2, h3, h4, h5, h6, h7, h8, h9⟩ := runChunks_inv t0 cs
  have hbne : (runChunks t0 cs).batch_buffer ≠ "" →
      (runChunks t0 cs).events ≠ [] := by
    intro hbb h0
    by_cases hfc : (runChunks t0 cs).first_chunk = true
    · exact hbb (h2 hfc).2.1
    · cases hcs : cs.find? (fun x => x.2 ≠ "") with
      | none => exact hfc (h1.mpr hcs)
      | some p =>
        have hh := h5 p hcs
        rw [h0] at hh
        simp at hh
  refine ⟨?_, ?_, h7, ?_, ?_, h3, ?_⟩
  · intro p hp
    have hhead := h5 p hp
    by_cases hbb : (runChunks t0 cs).batch_buffer = ""
    · simp only [do_generate_guidance_events, flushRemainder, hbb]
      simpa using hhead
    · simp only [do_generate_guidance_events, flushRemainder, if_pos hbb]
      exact head?_append_left _ _ _ hhead
  · intro e he
    by_cases hbb : (runChunks t0 cs).batch_buffer = ""
    · simp only [do_generate_guidance_events, flushRemainder, hbb] at he
      simp only [ite_not, if_pos rfl] at he
      exact h6 e (by simpa using he)
    · simp only [do_generate_guidance_events, flushRemainder, if_pos hbb] at he
      rw [tail_append_of_ne_nil _ _ (hbne hbb)] at he
      rcases List.mem_append.mp he with hmem | hmem
      · exact h6 e hmem
      · simp only [List.mem_singleton] at hmem
        rw [hmem]
  · intro hbb
    simp only [do_generate_guidance_events, flushRemainder, if_pos hbb]
  · intro n hn
    by_cases hbb : (runChunks t0 cs).batch_buffer = ""
    · have hevs : do_generate_guidance_events t0 t_end cs =
          (runChunks t0 cs).events := by
        simp only [do_generate_guidance_events, flushRemainder, hbb]
        simp
      revert hn
      rw [hevs]
      exact h9 n
    · have hevs : do_generate_guidance_events t0 t_end cs =
          (runChunks t0 cs).events ++
            [({ isStart := false, chunk := (runChunks t0 cs).batch_buffer,
                full := (runChunks t0 cs).full_text, time := t_end } :
              GChunkEv)] := by
        simp only [do_generate_guidance_events, flushRemainder, if_pos hbb]
      revert hn
      rw [hevs]
      intro hn
      rcases Nat.lt_or_ge n (runChunks t0 cs).events.length with hlt | hge
      · have htake : ((runChunks t0 cs).events ++
            [({ isStart := false, chunk := (runChunks t0 cs).batch_buffer,
                full := (runChunks t0 cs).full_text, time := t_end } :
              GChunkEv)]).take (n + 1) =
            (runChunks t0 cs).events.take (n + 1) := by
          rw [List.take_append_eq_append_take]
          have hz : n + 1 - (runChunks t0 cs).events.length = 0 := by omega
          rw [hz]
          simp
        rw [htake, List.getElem_append_left hlt]
        exact h9 n hlt
      · have hn2 : n = (runChunks t0 cs).events.length := by
          have hlen : ((runChunks t0 cs).events ++
              [({ isStart := false, chunk := (runChunks t0 cs).batch_buffer,
                  full := (runChunks t0 cs).full_text, time := t_end } :
                GChunkEv)]).length = (runChunks t0 cs).events.length + 1 := by
            simp
          rw [hlen] at hn
          omega
        have htake : ((runChunks t0 cs).events ++
            [({ isStart := false, chunk := (runChunks t0 cs).batch_buffer,
                full := (runChunks t0 cs).full_text, time := t_end } :
              GChunkEv)]).take (n + 1) =
            (runChunks t0 cs).events ++
            [({ isStart := false, chunk := (runChunks t0 cs).batch_buffer,
                full := (runChunks t0 cs).full_text, time := t_end } :
              GChunkEv)] := by
          apply List.take_of_length_le
          simp [hn2]
        have hsub : n - (runChunks t0 cs).events.length = 0 := by omega
        rw [htake, List.getElem_append_right hge]
        simp only [hsub, List.getElem_cons_zero]
        rw [List.map_append, List.map_cons, List.map_nil, strConcat_append,
          strConcat_singleton]
        show (runChunks t0 cs).full_text =
          strConcat ((runChunks t0 cs).events.map GChunkEv.chunk) ++
            (runChunks t0 cs).batch_buffer
        rw [h4]
  · intro trig tchunks u0 u1
    simp only [telnyx_generate_guidance_events, List.filterMap_cons,
      List.filterMap_append, List.filterMap_map]
    have hfun : ((fun te : ℚ × TelnyxEvent => match te.2 with
        | TelnyxEvent.guidance_chunk txt => some (te.1, txt)
        | _ => none) ∘
          fun c : ℚ × String => (c.1, TelnyxEvent.guidance_chunk c.2)) =
        fun c => some c := by
      funext c
      rfl
    rw [hfun, List.filterMap_some]
    simp

/-- C6 counterexample: the Telnyx handler emits two `guidance_chunk` events
only 10ms apart (< 80ms), each carrying only the incremental text — the
stream, as broadcast, has no rebatching and no cumulative full text on chunk
events, contradicting the claim for "every generation token stream". -/
theorem stream_rebatch_cex :
    telnyx_generate_guidance_events "too expensive" [(0, "a"), (1/100, "b")]
      0 (1/50) =
      [(0, TelnyxEvent.guidance_start "too expensive"),
        (0, TelnyxEvent.guidance_chunk "a"),
        (1/100, TelnyxEvent.guidance_chunk "b"),
        (1/50, TelnyxEvent.guidance_complete "ab")] ∧
    (1/100 : ℚ) - 0 < BATCH_INTERVAL := by
  constructor
  · with_unfolding_all decide
  · with_unfolding_all decide

/-- C6 witness: a concrete four-fragment stream — the first fragment becomes
an immediate `guidance_start`, and the remainder left in the batch buffer is
flushed at stream end. -/
theorem stream_rebatch_witness :
    (do_generate_guidance_events 0 1
      [(0, "He"), (1/100, "llo"), (1/10, " world"), (11/100, "!")]).head? =
      some ⟨true, "He", "He", 0⟩ ∧
    do_generate_guidance_events 0 1
      [(0, "He"), (1/100, "llo"), (1/10, " world"), (11/100, "!")] =
      (runChunks 0
        [(0, "He"), (1/100, "llo"), (1/10, " world"), (11/100, "!")]).events ++
        [⟨false,
          (runChunks 0
            [(0, "He"), (1/100, "llo"), (1/10, " world"),
              (11/100, "!")]).batch_buffer,
          (runChunks 0
            [(0, "He"), (1/100, "llo"), (1/10, " world"),
              (11/100, "!")]).full_text,
          1⟩] := by
  constructor
  · exact (stream_rebatch_spec 0 1 _).1 (0, "He") (by with_unfolding_all decide)
  · exact (stream_rebatch_spec 0 1 _).2.2.2.1 (by with_unfolding_all decide)

/-- C7: a generation attempt that begins with the flag clear ends with the
flag clear on all three outcomes (normal completion, the 8s timeout, a
backend exception), so the session can always generate again; and the three
outcomes are logged distinctly — the timeout path and the error path are
separate logged outcomes, neither of which crashes (the function is total)
or emits a completion. -/
theorem generation_cleanup_spec (s : TriggerState) (o : BodyOutcome)
    (hg : s.generating_guidance = false) :
    (∀ hr : Bool, (generate_guidance hr s o).1.generating_guidance = false) ∧
    (pyStrip s.transcript_buffer ≠ "" →
      ((o = .completed → generate_guidance true s o =
          ({ s with transcript_buffer := "", generating_guidance := false },
            .ok)) ∧
        (o = .timedOut → generate_guidance true s o =
          ({ s with transcript_buffer := "", generating_guidance := false },
            .timeout_logged)) ∧
        (o = .failed → generate_guidance true s o =
          ({ s with generating_guidance := false }, .error_logged)))) := by
  constructor
  · intro hr
    cases hr <;> cases o <;> simp [generate_guidance, hg] <;>
      split_ifs <;> simp [hg]
  · intro hb
    refine ⟨?_, ?_, ?_⟩ <;> rintro rfl <;> simp [generate_guidance, hg, hb]

/-- C7 witness: concrete failed and timed-out attempts both clear the flag,
with their distinct logged outcomes. -/
theorem generation_cleanup_witness :
    (generate_guidance true ⟨"hello", 1, "", false⟩ .failed).1.generating_guidance
      = false ∧
    generate_guidance true ⟨"hello", 1, "", false⟩ .timedOut =
      (⟨"", 1, "", false⟩, .timeout_logged) := by
  have ht := generation_cleanup_spec ⟨"hello", 1, "", false⟩ .timedOut rfl
  have hf := generation_cleanup_spec ⟨"hello", 1, "", false⟩ .failed rfl
  exact ⟨hf.1 true, (ht.2 (by decide)).2.1 rfl⟩

/-- C8 (code-bug evidence): `_log_session_usage` never resets the audio byte
counter and has no logged-already guard, so a session with 32000 audio bytes
(1.0s) that is torn down by `stop()` AND by the provider close callback — in
either order — emits TWO billing records of 1.0s each, while a single path
emits one.  The claim (and the spec) require exactly one emission. -/
theorem usage_logged_twice_on_stop_and_close :
    (rt_handle_close (rt_stop ⟨true, true, 32000, []⟩)).usage_log = [1, 1] ∧
    (rt_stop (rt_handle_close ⟨true, true, 32000, []⟩)).usage_log = [1, 1] ∧
    (rt_stop ⟨true, true, 32000, []⟩).usage_log = [1] := by
  refine ⟨?_, ?_, ?_⟩ <;> with_unfolding_all decide

/-- C9: the down-close level never decreases across a call; below the cap a
call increments the level by exactly one and returns success; at or above the
cap the state is unchanged and the call returns false — and hence every
further call (any number of repetitions) still returns false.  The
realtime-side wrapper returns false when no state machine exists. -/
theorem down_close_spec :
    (∀ m : CallSM, m.down_close_level ≤ (m.apply_down_close).1.down_close_level) ∧
    (∀ m : CallSM, m.down_close_level < m.max_down_close →
      (m.apply_down_close).1.down_close_level = m.down_close_level + 1 ∧
      (m.apply_down_close).2 = true) ∧
    (∀ m : CallSM, m.max_down_close ≤ m.down_close_level →
      m.apply_down_close = (m, false)) ∧
    (∀ (m : CallSM) (n : ℕ), m.max_down_close ≤ m.down_close_level →
      ((m.applyN n).apply_down_close).2 = false) ∧
    rt_apply_down_close none = (none, false) ∧
    (∀ m : CallSM, rt_apply_down_close (some m) =
      (some (m.apply_down_close).1, (m.apply_down_close).2)) := by
  have hcap : ∀ m : CallSM, m.max_down_close ≤ m.down_close_level →
      m.apply_down_close = (m, false) := by
    intro m h
    simp [CallSM.apply_down_close, not_lt.mpr h]
  refine ⟨?_, ?_, hcap, ?_, rfl, fun m => rfl⟩
  · intro m
    by_cases h : m.down_close_level < m.max_down_close <;>
      simp [CallSM.apply_down_close, h]
  · intro m h
    simp [CallSM.apply_down_close, h]
  · intro m n h
    have hfix : m.applyN n = m := by
      induction n with
      | zero => rfl
      | succ k ih => simp [CallSM.applyN, ih, hcap m h]
    rw [hfix, hcap m h]

/-- C9 witness: at level 2 of cap 3 the call succeeds to level 3; at the cap
every call — including the fifth repetition — returns false and leaves the
level unchanged. -/
theorem down_close_witness :
    ((⟨2, 3, false, none, none, none, none⟩ :
      CallSM).apply_down_close).1.down_close_level = 3 ∧
    (⟨3, 3, false, none, none, none, none⟩ : CallSM).apply_down_close =
      (⟨3, 3, false, none, none, none, none⟩, false) ∧
    (((⟨3, 3, false, none, none, none, none⟩ :
      CallSM).applyN 5).apply_down_close).2 = false :=
  ⟨(down_close_spec.2.1 _ (by decide)).1,
    down_close_spec.2.2.1 _ (by decide),
    down_close_spec.2.2.2.1 _ 5 (by decide)⟩

/-- C10: once the state machine exists, a later `update_context` call leaves
the state machine (hence its client profile) completely unchanged; the
profile fields of the update go only to the legacy call context (age,
occupation, family — and the budget key of a later update is applied nowhere:
dropping it changes nothing). -/
theorem update_context_after_sm (s : SessionCtx) (d : ContextData) (m : CallSM)
    (h : s.state_machine = some m) :
    (update_context s d).state_machine = some m ∧
    update_context s d = update_context s { d with budget := none } ∧
    (update_context s d).call_context.client_age =
      (if d.client_age.isSome then d.client_age else s.call_context.client_age) ∧
    (update_context s d).call_context.client_occupation =
      (if d.client_occupation.isSome then d.client_occupation
        else s.call_context.client_occupation) ∧
    (update_context s d).call_context.client_family =
      (if d.client_family.isSome then d.client_family
        else s.call_context.client_family) := by
  have hnone : s.state_machine.isNone = false := by
    rw [h]
    rfl
  refine ⟨?_, ?_, ?_, ?_, ?_⟩ <;>
    simp [update_context, hnone, h] <;>
    split_ifs <;> simp_all

/-- C10 witness: with a state machine already present, an update that carries
age and budget changes only the legacy context age and leaves the machine
untouched. -/
theorem update_context_witness :
    (update_context
      ⟨⟨none, none, none, none, none⟩, some (CallSM.init false), none⟩
      ⟨some "phone", none, some "44", none, none, some "100",
        some "AG1"⟩).state_machine = some (CallSM.init false) ∧
    (update_context
      ⟨⟨none, none, none, none, none⟩, some (CallSM.init false), none⟩
      ⟨some "phone", none, some "44", none, none, some "100",
        some "AG1"⟩).call_context.client_age = some "44" := by
  have h := update_context_after_sm
    ⟨⟨none, none, none, none, none⟩, some (CallSM.init false), none⟩
    ⟨some "phone", none, some "44", none, none, some "100", some "AG1"⟩
    (CallSM.init false) rfl
  refine ⟨h.1, ?_⟩
  rw [h.2.2.1]
  rfl

end Coachd
